import Mathlib

/-!
Shallow embedding of the prediction-retrieval pipeline of the Virginia
crash-risk site: the Express handler in `server.js` (date validation,
in-memory cache, R-subprocess invocation, CSV read-back, cache write)
and the R export scripts (`export_predictions_real_data.R`,
`export_predictions_updated.R`, and the unnamed export script):
feature generation, batch prediction with fallback, envelope
filtering, and confidence scoring.

Numbers are embedded as `ℚ` (probabilities, coordinates, scores) so
that every definition is executable; the trigonometric feature
encodings use `ℝ`.
-/

namespace CrashPipeline

/-! ### Rounding, as R's `round` (IEC 60559: round half to even) -/

/-- R's `round` on a rational: round half to even. -/
def rround (q : ℚ) : ℤ :=
  if q - (⌊q⌋ : ℚ) < 1/2 then ⌊q⌋
  else if 1/2 < q - (⌊q⌋ : ℚ) then ⌊q⌋ + 1
  else if ⌊q⌋ % 2 = 0 then ⌊q⌋ else ⌊q⌋ + 1

/-! ### Clamping (R's `pmax`/`pmin`) -/

/-- `pmax(lo, pmin(hi, x))`. -/
def clampQ (lo hi x : ℚ) : ℚ := max lo (min hi x)

/-- `pmax(0, pmin(1, x))`, the probability clamp of the export scripts. -/
def clamp01 (x : ℚ) : ℚ := clampQ 0 1 x

/-! ### Date-string validation (`server.js`, POST /api/predictions, lines 70-83)

The handler first tries the regex `^(\d{1,2})[-\/](\d{1,2})[-\/](\d{4})$`
(captures rearranged into `YYYY-MM-DD` with zero-padding), and otherwise
requires the shape `^\d{4}-\d{2}-\d{2}$`.  Only the digit/separator shape
is checked at this layer; calendar validity is left to the R script. -/

/-- Match of `^(\d{1,2})[-\/](\d{1,2})[-\/](\d{4})$` on a character list,
returning the three capture groups (month, day, year digits). -/
def parseMMDDYYYY (cs : List Char) : Option (List Char × List Char × List Char) :=
  let (m, rest) := cs.span Char.isDigit
  if m.length = 0 ∨ 2 < m.length then none
  else
    match rest with
    | [] => none
    | s1 :: rest1 =>
      if s1 = '-' ∨ s1 = '/' then
        let (d, rest2) := rest1.span Char.isDigit
        if d.length = 0 ∨ 2 < d.length then none
        else
          match rest2 with
          | [] => none
          | s2 :: rest3 =>
            if s2 = '-' ∨ s2 = '/' then
              let (y, rest4) := rest3.span Char.isDigit
              if y.length = 4 ∧ rest4 = [] then some (m, d, y) else none
            else none
      else none

/-- Test of `^\d{4}-\d{2}-\d{2}$` on a character list. -/
def isYYYYMMDDShape (cs : List Char) : Bool :=
  match cs with
  | [y1, y2, y3, y4, s1, m1, m2, s2, d1, d2] =>
    y1.isDigit && y2.isDigit && y3.isDigit && y4.isDigit && s1 = '-' &&
    m1.isDigit && m2.isDigit && s2 = '-' && d1.isDigit && d2.isDigit
  | _ => false

/-- JavaScript's `padStart(2, '0')` on a digit-group string. -/
def pad2 (cs : List Char) : List Char :=
  if cs.length = 1 then '0' :: cs else cs

/-- The `formattedDate` computation of the handler: the `MM-DD-YYYY` /
`MM/DD/YYYY` forms are rearranged to `YYYY-MM-DD`; a string already in the
`YYYY-MM-DD` shape passes through; anything else is a format error. -/
def formatDate (date : String) : Option String :=
  match parseMMDDYYYY date.data with
  | some (m, d, y) => some ⟨y ++ ('-' :: pad2 m) ++ ('-' :: pad2 d)⟩
  | none => if isYYYYMMDDShape date.data then some date else none

/-! ### Calendar-date parsing in the R script
(`export_predictions_real_data.R` lines 28-35: `as.Date(x, "%Y-%m-%d")`
yields `NA` for non-calendar dates and the script stops). -/

/-- Numeric value of a digit string. -/
def digitsToNat (cs : List Char) : ℕ :=
  cs.foldl (fun n c => 10 * n + (c.toNat - '0'.toNat)) 0

/-- Gregorian leap-year test. -/
def isLeap (y : ℕ) : Bool := (y % 4 = 0 && y % 100 ≠ 0) || y % 400 = 0

/-- Days in a month of the Gregorian calendar. -/
def daysInMonth (y m : ℕ) : ℕ :=
  if m = 2 then (if isLeap y then 29 else 28)
  else if m = 4 ∨ m = 6 ∨ m = 9 ∨ m = 11 then 30
  else 31

/-- `as.Date(s, "%Y-%m-%d")`: succeeds only on a `YYYY-MM-DD`-shaped string
denoting a real calendar date. -/
def parseISODate (cs : List Char) : Option (ℕ × ℕ × ℕ) :=
  match cs with
  | [y1, y2, y3, y4, s1, m1, m2, s2, d1, d2] =>
    if (y1.isDigit && y2.isDigit && y3.isDigit && y4.isDigit && s1 = '-' &&
        m1.isDigit && m2.isDigit && s2 = '-' && d1.isDigit && d2.isDigit) then
      let y := digitsToNat [y1, y2, y3, y4]
      let m := digitsToNat [m1, m2]
      let d := digitsToNat [d1, d2]
      if 1 ≤ m ∧ m ≤ 12 ∧ 1 ≤ d ∧ d ≤ daysInMonth y m then some (y, m, d) else none
    else none
  | _ => none

/-! ### Server state and the POST /api/predictions handler (`server.js` 59-162)

State components: `cache` is the in-process `PREDICTION_CACHE` map,
`persist` is the R script's on-disk per-date cache
(`data/cache/predictions_<date>.csv`), `diskCsv` is the shared output file
`data/crash_predictions.csv`, and `rInvocations` counts executions of the
R scoring subprocess.  The external model computation is an oracle
`Env.compute` giving, per formatted date, either the CSV a successful run
produces or `none` for a failed run (missing model, missing locations,
subprocess crash, timeout). -/

/-- Association-list lookup keyed by date string; newest binding wins,
matching `Map.get` after `Map.set`. -/
def alookup (k : String) : List (String × String) → Option String
  | [] => none
  | (k', v) :: t => if k' = k then some v else alookup k t

/-- Association-list update, as `Map.set` (newest binding shadows). -/
def ainsert (k v : String) (l : List (String × String)) : List (String × String) :=
  (k, v) :: l

/-- Mutable state visible to the handler. -/
structure ServerState where
  cache : List (String × String)
  persist : List (String × String)
  diskCsv : Option String
  rInvocations : ℕ
deriving DecidableEq, Repr

/-- The opaque scoring computation: per formatted date, the CSV produced by
a successful model run, or `none` when the run fails. -/
structure Env where
  compute : String → Option String

/-- HTTP responses of the handler, by observable kind. -/
inductive Response where
  | missingDate
  | invalidFormat
  | fromCache (csv : String)
  | generated (csv : String)
  | execError
  | noCsv
deriving DecidableEq, Repr

/-- One run of the R export script (`export_predictions_real_data.R`):
parse the date (stop on non-calendar dates), then consult the persistent
per-date CSV cache (`check_cache`); on a persistent hit the model is not
run and the cached CSV is re-exported to the shared output file; on a miss
the model pipeline runs and, on success, writes both the output file and
the persistent cache.  `false` is a non-zero exit. -/
def runRScript (env : Env) (st : ServerState) (fd : String) : ServerState × Bool :=
  match parseISODate fd.data with
  | none => (st, false)
  | some _ =>
    match alookup fd st.persist with
    | some csv => ({ st with diskCsv := some csv }, true)
    | none =>
      match env.compute fd with
      | some csv => ({ st with diskCsv := some csv, persist := ainsert fd csv st.persist }, true)
      | none => (st, false)

/-- The cache-and-compute part of the handler, after date formatting:
check `PREDICTION_CACHE`; on a miss, exec the R script (counted), then
read back the CSV file and populate the cache (`server.js` 87-156). -/
def procFormatted (env : Env) (st : ServerState) (fd : String) : ServerState × Response :=
  match alookup fd st.cache with
  | some csv => (st, .fromCache csv)
  | none =>
    let st1 := { st with rInvocations := st.rInvocations + 1 }
    match runRScript env st1 fd with
    | (st2, true) =>
      match st2.diskCsv with
      | some csv => ({ st2 with cache := ainsert fd csv st2.cache }, .generated csv)
      | none => (st2, .noCsv)
    | (st2, false) => (st2, .execError)

/-- The POST /api/predictions handler: body presence check, date-format
validation/normalization, then the cache-and-compute path. -/
def handle (env : Env) (st : ServerState) (body : Option String) : ServerState × Response :=
  match body with
  | none => (st, .missingDate)
  | some date =>
    match formatDate date with
    | some fd => procFormatted env st fd
    | none => (st, .invalidFormat)

/-- The fast-tier TTL: the `setTimeout` scheduled at cache-write time
deletes the entry one hour later (`server.js` 137-140).  It is a separate
transition of the server state; a request "immediately following" another
(as in the cache-hit claims) means no such deletion fires in between. -/
def expireEntry (fd : String) (st : ServerState) : ServerState :=
  { st with cache := st.cache.filter (fun kv => kv.1 ≠ fd) }

/-! ### Interleaving semantics for concurrent requests (node event loop)

The handler's only `await` is `execPromise(command, ...)`; everything
between awaits runs atomically on the event loop.  A request is therefore
split into two atomic segments: (1) date formatting plus cache check,
launching the subprocess on a miss, and (2) on subprocess completion,
applying the script's effects, reading the CSV back and writing the fast
cache.  A schedule interleaves the segments of two requests for the same
date string. -/

/-- Progress of one in-flight request. -/
inductive Phase where
  | pending
  | inFlight
  | finished (r : Response)
deriving DecidableEq, Repr

/-- Shared server state plus the phase of two concurrent requests. -/
structure SysState where
  server : ServerState
  reqA : Phase
  reqB : Phase
deriving DecidableEq, Repr

/-- One atomic segment of a single request. -/
def stepReq (env : Env) (date : String) (st : ServerState) :
    Phase → ServerState × Phase
  | .pending =>
    match formatDate date with
    | none => (st, .finished .invalidFormat)
    | some fd =>
      match alookup fd st.cache with
      | some csv => (st, .finished (.fromCache csv))
      | none => ({ st with rInvocations := st.rInvocations + 1 }, .inFlight)
  | .inFlight =>
    match formatDate date with
    | none => (st, .finished .invalidFormat)
    | some fd =>
      match runRScript env st fd with
      | (st2, true) =>
        match st2.diskCsv with
        | some csv =>
          ({ st2 with cache := ainsert fd csv st2.cache }, .finished (.generated csv))
        | none => (st2, .finished .noCsv)
      | (st2, false) => (st2, .finished .execError)
  | .finished r => (st, .finished r)

/-- Scheduler step: `true` advances request A, `false` request B. -/
def sysStep (env : Env) (date : String) (s : SysState) (which : Bool) : SysState :=
  if which then
    let (st', p) := stepReq env date s.server s.reqA
    { s with server := st', reqA := p }
  else
    let (st', p) := stepReq env date s.server s.reqB
    { s with server := st', reqB := p }

/-- Run a schedule of interleaved segments. -/
def sysRun (env : Env) (date : String) (s : SysState) : List Bool → SysState
  | [] => s
  | w :: ws => sysRun env date (sysStep env date s w) ws

/-! ### The R prediction pipeline (`export_predictions_real_data.R`)

`generate_crash_location_features` (lines 128-161) expands a location list
to the cross product with hours 0..23 (location-major, hour fastest,
as `tidyr::expand_grid`) and computes the temporal encodings;
`generate_batch_predictions` (163-222) interprets the model output or
falls back to synthetic scores; `filter_valid_predictions` (224-241)
drops rows outside the Virginia box; `add_confidence_score` (243-251)
derives the confidence column. -/

/-- A crash location row: latitude, longitude, road name. -/
structure Location where
  lat : ℚ
  lon : ℚ
  name : String
deriving DecidableEq, Repr

/-- One location-hour feature row, as produced by the `mutate` in
`generate_crash_location_features`.  The four cyclical-encoding columns
take values in a parameter type `α`: the rest of the pipeline never reads
them (they are only handed to the opaque model), so the embedding stays
executable; the theorem about the feature generator instantiates `α := ℝ`
with the genuine `Real.sin`/`Real.cos` encodings. -/
structure Feature (α : Type) where
  lat : ℚ
  lon : ℚ
  hour : ℕ
  hour_sin : α
  hour_cos : α
  is_morning_rush : ℚ
  is_evening_rush : ℚ
  is_night : ℚ
  day_of_week : ℕ
  day_sin : α
  day_cos : α
  name : String

/-- The four cyclical encodings, as functions of the hour (24-period
columns) and of the day of week (7-period columns). -/
structure TrigEncoding (α : Type) where
  hourSin : ℕ → α
  hourCos : ℕ → α
  daySin : ℕ → α
  dayCos : ℕ → α

/-- An intermediate prediction row, after
`select(lat, lon, probability, hour, name)`. -/
structure Pred where
  lat : ℚ
  lon : ℚ
  probability : ℚ
  hour : ℕ
  name : String
deriving DecidableEq, Repr

/-- A finalized prediction row, after `add_confidence_score`'s
`select(lat, lon, probability, confidence_score, hour, date, name)`. -/
structure FinalPred where
  lat : ℚ
  lon : ℚ
  probability : ℚ
  confidence_score : ℤ
  hour : ℕ
  date : String
  name : String
deriving DecidableEq, Repr

/-- The feature row for one (location, hour) pair; `dow` is
`lubridate::wday(prediction_date)`. -/
def featureFor {α : Type} (enc : TrigEncoding α) (loc : Location) (dow : ℕ) (h : ℕ) :
    Feature α :=
  { lat := loc.lat
    lon := loc.lon
    hour := h
    hour_sin := enc.hourSin h
    hour_cos := enc.hourCos h
    is_morning_rush := if 7 ≤ h ∧ h ≤ 9 then 1 else 0
    is_evening_rush := if 16 ≤ h ∧ h ≤ 18 then 1 else 0
    is_night := if 22 ≤ h ∨ h ≤ 2 then 1 else 0
    day_of_week := dow
    day_sin := enc.daySin dow
    day_cos := enc.dayCos dow
    name := loc.name }

/-- `expand_grid(location_idx, hour = 0:23)` joined back to the location
list: location-major, hour varying fastest. -/
def generate_crash_location_features {α : Type} (enc : TrigEncoding α)
    (locs : List Location) (dow : ℕ) : List (Feature α) :=
  locs.flatMap (fun loc => (List.range 24).map (fun h => featureFor enc loc dow h))

/-- The observable shapes of `predict(model, X)` along with the RNG draws
the script consumes in the degenerate cases: a two-column probability
matrix, a plain numeric vector, an unrecognized shape (scored by
`runif(n, 0.1, 0.8)` draws), or an error thrown by `predict` (recovered
with `rnorm` noise around an indicator-dependent mean). -/
inductive RawOutput where
  | probMatrix (rows : List (ℚ × ℚ))
  | numericVec (vals : List ℚ)
  | unrecognized (draws : List ℚ)
  | failure (noise : List ℚ)
deriving Repr

/-- A prediction row built from a feature row and a probability
(`mutate(probability = probs)` + `select(lat, lon, probability, hour, name)`). -/
def mkPredRow {α : Type} (f : Feature α) (p : ℚ) : Pred :=
  { lat := f.lat, lon := f.lon, probability := p, hour := f.hour, name := f.name }

/-- The mean of the `rnorm` draw in the fallback `case_when`: 0.6 during
a rush-hour indicator, 0.4 at night, 0.3 otherwise. -/
def fallbackMean {α : Type} (f : Feature α) : ℚ :=
  if f.is_morning_rush = 1 ∨ f.is_evening_rush = 1 then 6/10
  else if f.is_night = 1 then 4/10
  else 3/10

/-- `generate_batch_predictions`: take the positive-class column of a
probability matrix, or a numeric vector directly, or `runif` draws on an
unrecognized shape — all then clamped by `pmax(0, pmin(1, probs))`; on a
`predict` error, fall back to `pmax(0.1, pmin(0.9, rnorm(n, mean, 0.15)))`
per row, the mean chosen by the rush/night indicators.  An `rnorm(n, m, s)`
draw is embedded as `m + z` with `z` the centered noise. -/
def generate_batch_predictions {α : Type} (out : RawOutput)
    (features : List (Feature α)) : List Pred :=
  match out with
  | .probMatrix rows => List.zipWith mkPredRow features ((rows.map Prod.snd).map clamp01)
  | .numericVec vals => List.zipWith mkPredRow features (vals.map clamp01)
  | .unrecognized draws => List.zipWith mkPredRow features (draws.map clamp01)
  | .failure noise =>
    List.zipWith (fun f z => mkPredRow f (clampQ (1/10) (9/10) (fallbackMean f + z)))
      features noise

/-- The Virginia bounding box used by `filter_valid_predictions`,
`filter_valid_highways` and `filter_virginia_land`:
`36.5 ≤ lat ≤ 39.5`, `-83.5 ≤ lon ≤ -75.0`. -/
def inVirginiaBox (lat lon : ℚ) : Bool :=
  decide ((36.5 : ℚ) ≤ lat) && decide (lat ≤ (39.5 : ℚ)) &&
  decide ((-83.5 : ℚ) ≤ lon) && decide (lon ≤ (-75 : ℚ))

/-- `filter_valid_predictions`: keep only rows inside the Virginia box. -/
def filter_valid_predictions (l : List Pred) : List Pred :=
  l.filter (fun p => inVirginiaBox p.lat p.lon)

/-- `filter_virginia_land` of the unnamed export script: the same
rectangular geofence. -/
def filter_virginia_land (l : List Pred) : List Pred :=
  l.filter (fun p => inVirginiaBox p.lat p.lon)

/-- `add_confidence_score` (real-data script):
`confidence_score = round(pmax(probability, 1 - probability) * 100)` plus
the date column. -/
def add_confidence_score (l : List Pred) (ds : String) : List FinalPred :=
  l.map (fun p =>
    { lat := p.lat, lon := p.lon, probability := p.probability
      confidence_score := rround (max p.probability (1 - p.probability) * 100)
      hour := p.hour, date := ds, name := p.name })

/-- The full post-scoring pipeline of `export_predictions_real_data.R`:
features → batch prediction → envelope filter → confidence + date. -/
def pipeline {α : Type} (enc : TrigEncoding α) (locs : List Location) (dow : ℕ)
    (ds : String) (out : RawOutput) : List FinalPred :=
  add_confidence_score
    (filter_valid_predictions
      (generate_batch_predictions out (generate_crash_location_features enc locs dow))) ds

/-! ### The unnamed export script's output stage (`export_crash_predictions`)
and confidence stage (`add_confidence_score`), and the normalization of
`export_predictions_updated.R`. -/

/-- Input row of `export_crash_predictions`: the `confidence_score` column
may be absent; `hour` is unconstrained on input. -/
structure ECPRow where
  lat : ℚ
  lon : ℚ
  probability : ℚ
  hour : ℤ
  confidence_score : Option ℤ
  name : String
deriving DecidableEq, Repr

/-- Output row of `export_crash_predictions`. -/
structure ECPOut where
  lat : ℚ
  lon : ℚ
  probability : ℚ
  hour : ℤ
  confidence_score : ℤ
  date : String
  name : String
deriving DecidableEq, Repr

/-- `export_crash_predictions`: keep a present confidence column, else
derive it from the (not yet clamped) probability; then clamp the
probability to `[0,1]` and keep only hours in `[0,23]`. -/
def export_crash_predictions (rows : List ECPRow) (ds : String) : List ECPOut :=
  (rows.map (fun r =>
    ({ lat := r.lat, lon := r.lon
       probability := clamp01 r.probability
       hour := r.hour
       confidence_score :=
         match r.confidence_score with
         | some c => c
         | none => rround (max r.probability (1 - r.probability) * 100)
       date := ds, name := r.name } : ECPOut))).filter
    (fun r => decide (0 ≤ r.hour) && decide (r.hour ≤ 23))

/-- Output row of the unnamed script's `add_confidence_score`
(`select(lat, lon, probability, confidence_score, hour, location_name)`). -/
structure P2Pred where
  lat : ℚ
  lon : ℚ
  probability : ℚ
  confidence_score : ℤ
  hour : ℕ
  location_name : String
deriving DecidableEq, Repr

/-- The unnamed export script's `add_confidence_score`:
`confidence = pmax(probability, 1 - probability)` scaled to 0-100. -/
def add_confidence_score_p2 (l : List Pred) : List P2Pred :=
  l.map (fun p =>
    { lat := p.lat, lon := p.lon, probability := p.probability
      confidence_score := rround (max p.probability (1 - p.probability) * 100)
      hour := p.hour, location_name := p.name })

/-- A location-cluster row of `export_predictions_updated.R` carrying the
ensemble prediction (`(rf_pred + gbm_pred) / 2`). -/
structure UpdRow where
  x : ℚ
  y : ℚ
  cluster : String
  ensemble : ℚ
deriving DecidableEq, Repr

/-- `export_predictions_updated.R` lines 230-239:
`probability = pmax(0.1, pmin(0.9, pmin(1, ensemble / (max_crashes / 2))))`. -/
def upd_probability (e mx : ℚ) : ℚ :=
  clampQ (1/10) (9/10) (min 1 (e / (mx / 2)))

/-- The prediction rows of `export_predictions_updated.R` (lines 233-245):
hour fixed at 12, `confidence_score = round(probability * 100)` (the
`crash_count_prediction` column is dropped here as unused downstream). -/
def updated_predictions (rows : List UpdRow) (mx : ℚ) (ds : String) : List FinalPred :=
  rows.map (fun r =>
    { lat := r.y, lon := r.x, probability := upd_probability r.ensemble mx
      confidence_score := rround (upd_probability r.ensemble mx * 100)
      hour := 12, date := ds, name := r.cluster })

/-- The trivial cyclical encoding, for exercising the pipeline on concrete
inputs (the pipeline never reads these columns). -/
def encU : TrigEncoding Unit := ⟨fun _ => (), fun _ => (), fun _ => (), fun _ => ()⟩

/-- A concrete morning-rush-hour feature row (hour 8), for exercising the
fallback scoring path. -/
def rushFeature : Feature Unit :=
  { lat := 37, lon := -77, hour := 8, hour_sin := (), hour_cos := ()
    is_morning_rush := 1, is_evening_rush := 0, is_night := 0
    day_of_week := 1, day_sin := (), day_cos := (), name := "x" }

/-! ### Theorems -/

/-- After the TTL transition fires for a date, the fast tier no longer
holds that date: it is treated as a full miss. -/
theorem expireEntry_removes (fd : String) (st : ServerState) :
    alookup fd (expireEntry fd st).cache = none := by
  unfold expireEntry
  induction st.cache with
  | nil => rfl
  | cons kv t ih =>
    by_cases hkv : kv.1 = fd
    · simpa [List.filter, hkv] using ih
    · simpa [List.filter, hkv, alookup] using ih

/-- `rround` never exceeds an integer upper bound. -/
theorem rround_le_of_le {q : ℚ} {b : ℤ} (h : q ≤ (b : ℚ)) : rround q ≤ b := by
  have hf : ⌊q⌋ ≤ b := by
    have := Int.floor_le_floor (α := ℚ) h
    simpa using this
  have hfloor : (⌊q⌋ : ℚ) ≤ q := Int.floor_le q
  unfold rround
  split_ifs with h1 h2 h3
  · exact hf
  · have hfrac : (0 : ℚ) < q - (⌊q⌋ : ℚ) := by linarith
    have hlt : (⌊q⌋ : ℚ) < q := by linarith
    have : ⌊q⌋ < b := by
      by_contra hb
      push_neg at hb
      have hcast : (b : ℚ) ≤ (⌊q⌋ : ℚ) := by exact_mod_cast hb
      linarith
    omega
  · exact hf
  · have hfrac : (0 : ℚ) < q - (⌊q⌋ : ℚ) := by linarith
    have hlt : (⌊q⌋ : ℚ) < q := by linarith
    have : ⌊q⌋ < b := by
      by_contra hb
      push_neg at hb
      have hcast : (b : ℚ) ≤ (⌊q⌋ : ℚ) := by exact_mod_cast hb
      linarith
    omega

/-- `rround` never falls below an integer lower bound. -/
theorem le_rround_of_le {q : ℚ} {a : ℤ} (h : (a : ℚ) ≤ q) : a ≤ rround q := by
  have hf : a ≤ ⌊q⌋ := Int.le_floor.mpr h
  unfold rround
  split_ifs <;> omega

theorem clampQ_le {lo hi x : ℚ} (h : lo ≤ hi) : clampQ lo hi x ≤ hi := by
  unfold clampQ
  exact max_le h (min_le_left _ _)

theorem le_clampQ {lo hi x : ℚ} : lo ≤ clampQ lo hi x := le_max_left _ _

theorem clamp01_nonneg (x : ℚ) : 0 ≤ clamp01 x := le_clampQ

theorem clamp01_le_one (x : ℚ) : clamp01 x ≤ 1 := clampQ_le (by norm_num)

/-- After a `generated` response, the formatted date is in the fast cache
with the returned CSV. -/
theorem procFormatted_generated (env : Env) (st : ServerState) (fd csv : String)
    (h : (procFormatted env st fd).2 = Response.generated csv) :
    alookup fd (procFormatted env st fd).1.cache = some csv := by
  unfold procFormatted at h ⊢
  cases hc : alookup fd st.cache with
  | some c => simp [hc] at h
  | none =>
    simp only [hc] at h ⊢
    rcases hr : runRScript env { st with rInvocations := st.rInvocations + 1 } fd with ⟨st2, b⟩
    simp only [hr] at h ⊢
    cases b with
    | false => simp at h
    | true =>
      cases hd : st2.diskCsv with
      | none => simp [hd] at h
      | some c =>
        simp only [hd] at h ⊢
        simp only [Response.generated.injEq] at h
        subst h
        simp [alookup, ainsert]

/-- On a cache hit, the handler returns the cached CSV and leaves the state
untouched. -/
theorem procFormatted_hit (env : Env) (st : ServerState) (fd csv : String)
    (h : alookup fd st.cache = some csv) :
    procFormatted env st fd = (st, Response.fromCache csv) := by
  unfold procFormatted
  rw [h]

/-- When the fast tier misses, the persistent tier misses, and the model
computation fails, the handler surfaces an exec error and changes nothing
but the invocation counter. -/
theorem handle_computeFail (env : Env) (st : ServerState) (date fd : String)
    (hf : formatDate date = some fd)
    (hfast : alookup fd st.cache = none)
    (hpersist : alookup fd st.persist = none)
    (hcompute : env.compute fd = none) :
    handle env st (some date) =
      ({ st with rInvocations := st.rInvocations + 1 }, Response.execError) := by
  unfold handle procFormatted runRScript
  simp only [hf, hfast]
  cases hp : parseISODate fd.data with
  | none => simp [hp]
  | some v => simp [hp, hpersist, hcompute]

/-- C1.  After a cache miss on `date` whose computation succeeded (a
`generated` response), an immediately following request for the same date
is answered from the fast cache with the same CSV, the server state is
unchanged, and in particular the R scoring subprocess is not invoked
again. -/
theorem cache_hit_after_generated (env : Env) (st : ServerState) (date csv : String)
    (h : (handle env st (some date)).2 = Response.generated csv) :
    handle env (handle env st (some date)).1 (some date) =
      ((handle env st (some date)).1, Response.fromCache csv) ∧
    (handle env (handle env st (some date)).1 (some date)).1.rInvocations =
      (handle env st (some date)).1.rInvocations := by
  unfold handle at h ⊢
  cases hfd : formatDate date with
  | none => simp [hfd] at h
  | some fd =>
    simp only [hfd] at h ⊢
    have hl : alookup fd (procFormatted env st fd).1.cache = some csv :=
      procFormatted_generated env st fd csv h
    rw [procFormatted_hit env (procFormatted env st fd).1 fd csv hl]
    exact ⟨rfl, rfl⟩

/-- C1 witness: a concrete miss-then-hit run. -/
theorem cache_hit_after_generated_witness :
    (handle ⟨fun _ => some "csvdata"⟩ ⟨[], [], none, 0⟩ (some "2025-11-22")).2 =
      Response.generated "csvdata" ∧
    handle ⟨fun _ => some "csvdata"⟩
        (handle ⟨fun _ => some "csvdata"⟩ ⟨[], [], none, 0⟩ (some "2025-11-22")).1
        (some "2025-11-22") =
      ((handle ⟨fun _ => some "csvdata"⟩ ⟨[], [], none, 0⟩ (some "2025-11-22")).1,
        Response.fromCache "csvdata") :=
  ⟨by decide,
    (cache_hit_after_generated ⟨fun _ => some "csvdata"⟩ ⟨[], [], none, 0⟩
      "2025-11-22" "csvdata" (by decide)).1⟩

/-- C2.  When a valid date's entry is present only in the persistent
(on-disk) tier and absent from the fast tier, serving the request succeeds
from the persistent tier and leaves the fast tier containing that date's
entry (read-through promotion). -/
theorem persistent_hit_promotes (env : Env) (st : ServerState) (date fd csv : String)
    (hf : formatDate date = some fd)
    (hfast : alookup fd st.cache = none)
    (hvalid : (parseISODate fd.data).isSome = true)
    (hpersist : alookup fd st.persist = some csv) :
    (handle env st (some date)).2 = Response.generated csv ∧
    alookup fd (handle env st (some date)).1.cache = some csv := by
  rcases Option.isSome_iff_exists.mp hvalid with ⟨v, hv⟩
  unfold handle procFormatted runRScript
  simp [hf, hfast, hv, hpersist, alookup, ainsert]

/-- C2 witness: pre-seeding only the persistent tier, one request warms
the fast tier. -/
theorem persistent_hit_promotes_witness :
    formatDate "2025-11-22" = some "2025-11-22" ∧
    (handle ⟨fun _ => none⟩ ⟨[], [("2025-11-22", "oldcsv")], none, 0⟩
        (some "2025-11-22")).2 = Response.generated "oldcsv" ∧
    alookup "2025-11-22"
        (handle ⟨fun _ => none⟩ ⟨[], [("2025-11-22", "oldcsv")], none, 0⟩
          (some "2025-11-22")).1.cache = some "oldcsv" :=
  ⟨by decide,
    (persistent_hit_promotes ⟨fun _ => none⟩ ⟨[], [("2025-11-22", "oldcsv")], none, 0⟩
      "2025-11-22" "2025-11-22" "oldcsv" (by decide) (by decide) (by decide) (by decide)).1,
    (persistent_hit_promotes ⟨fun _ => none⟩ ⟨[], [("2025-11-22", "oldcsv")], none, 0⟩
      "2025-11-22" "2025-11-22" "oldcsv" (by decide) (by decide) (by decide) (by decide)).2⟩

/-- C7 counterexample.  The request `"13/40/2025"` is NOT rejected as an
invalid-format input: it matches the `MM/DD/YYYY` digit-shape regex, is
rewritten to `"2025-13-40"`, passes the cache check, and the R scoring
subprocess is invoked once (it then exits non-zero, surfacing a
script-execution error instead of the InvalidInput kind). -/
theorem invalid_calendar_date_not_rejected :
    (handle ⟨fun _ => some "csv"⟩ ⟨[], [], none, 0⟩ (some "13/40/2025")).2 ≠
      Response.invalidFormat ∧
    (handle ⟨fun _ => some "csv"⟩ ⟨[], [], none, 0⟩ (some "13/40/2025")).1.rInvocations = 1 ∧
    (handle ⟨fun _ => some "csv"⟩ ⟨[], [], none, 0⟩ (some "13/40/2025")).2 =
      Response.execError := by
  refine ⟨?_, ?_, ?_⟩ <;> decide

/-- C7 amended.  A date string matching neither accepted digit shape
(`MM-DD-YYYY` / `MM/DD/YYYY` / `YYYY-MM-DD`) is rejected immediately with
the invalid-format error kind, and the state — fast cache, persistent
cache, invocation counter — is untouched. -/
theorem bad_shape_rejected_immediately (env : Env) (st : ServerState) (date : String)
    (h : formatDate date = none) :
    handle env st (some date) = (st, Response.invalidFormat) := by
  unfold handle
  simp [h]

/-- C7 amended witness: a string in none of the accepted shapes. -/
theorem bad_shape_rejected_immediately_witness :
    formatDate "2025/11/22" = none ∧
    handle ⟨fun _ => some "csv"⟩ ⟨[], [], none, 0⟩ (some "2025/11/22") =
      (⟨[], [], none, 0⟩, Response.invalidFormat) :=
  ⟨by decide,
    bad_shape_rejected_immediately ⟨fun _ => some "csv"⟩ ⟨[], [], none, 0⟩
      "2025/11/22" (by decide)⟩

/-- C8.  When the computation fails on a full cache miss, the error is
surfaced as the exec-error kind, neither cache tier is written (only the
invocation counter changes), and an immediately following request for the
same date retries the computation (the counter increments again). -/
theorem failure_not_cached (env : Env) (st : ServerState) (date fd : String)
    (hf : formatDate date = some fd)
    (hfast : alookup fd st.cache = none)
    (hpersist : alookup fd st.persist = none)
    (hcompute : env.compute fd = none) :
    handle env st (some date) =
      ({ st with rInvocations := st.rInvocations + 1 }, Response.execError) ∧
    (handle env (handle env st (some date)).1 (some date)).1.rInvocations =
      st.rInvocations + 2 := by
  have h1 := handle_computeFail env st date fd hf hfast hpersist hcompute
  refine ⟨h1, ?_⟩
  rw [h1]
  have h2 := handle_computeFail env { st with rInvocations := st.rInvocations + 1 }
    date fd hf hfast hpersist hcompute
  rw [h2]

/-- C8 witness: a concrete failing computation, not cached, retried. -/
theorem failure_not_cached_witness :
    formatDate "2025-11-22" = some "2025-11-22" ∧
    handle ⟨fun _ => none⟩ ⟨[], [], none, 0⟩ (some "2025-11-22") =
      (⟨[], [], none, 1⟩, Response.execError) ∧
    (handle ⟨fun _ => none⟩
        (handle ⟨fun _ => none⟩ ⟨[], [], none, 0⟩ (some "2025-11-22")).1
        (some "2025-11-22")).1.rInvocations = 2 :=
  ⟨by decide,
    (failure_not_cached ⟨fun _ => none⟩ ⟨[], [], none, 0⟩ "2025-11-22" "2025-11-22"
      (by decide) (by decide) (by decide) (by decide)).1,
    (failure_not_cached ⟨fun _ => none⟩ ⟨[], [], none, 0⟩ "2025-11-22" "2025-11-22"
      (by decide) (by decide) (by decide) (by decide)).2⟩

/-- C10 counterexample.  Two requests for the same date arriving
concurrently during a cache miss: after each runs its first segment, BOTH
are in flight simultaneously, and when both complete the scoring
subprocess has been invoked twice — there is no single-flight
coalescing discipline in the handler. -/
theorem no_single_flight :
    (sysRun ⟨fun _ => some "csv"⟩ "2025-11-22" ⟨⟨[], [], none, 0⟩, .pending, .pending⟩
      [true, false]).reqA = Phase.inFlight ∧
    (sysRun ⟨fun _ => some "csv"⟩ "2025-11-22" ⟨⟨[], [], none, 0⟩, .pending, .pending⟩
      [true, false]).reqB = Phase.inFlight ∧
    (sysRun ⟨fun _ => some "csv"⟩ "2025-11-22" ⟨⟨[], [], none, 0⟩, .pending, .pending⟩
      [true, false, true, false]).server.rInvocations = 2 := by
  refine ⟨?_, ?_, ?_⟩ <;> decide

/-- C10 amended.  The handler has no single-flight discipline: when both
same-date requests pass the cache check before either completes, each
triggers its own scoring invocation (two invocations in the fully
interleaved schedule); a request whose cache check runs only after
another's computation has completed and populated the cache is served from
the cache without a new invocation. -/
theorem coalesced_only_after_completion (env : Env) (date fd csv : String)
    (s : SysState)
    (hf : formatDate date = some fd)
    (hc : alookup fd s.server.cache = some csv)
    (hp : s.reqB = Phase.pending) :
    (sysStep env date s false).reqB = Phase.finished (Response.fromCache csv) ∧
    (sysStep env date s false).server.rInvocations = s.server.rInvocations ∧
    (sysRun ⟨fun _ => some "csv"⟩ "2025-11-22" ⟨⟨[], [], none, 0⟩, .pending, .pending⟩
      [true, false, true, false]).server.rInvocations = 2 := by
  refine ⟨?_, ?_, by decide⟩ <;>
    · unfold sysStep stepReq
      simp [hp, hf, hc]

/-- C10 amended witness: request B checks the cache after request A has
completed and is served from the cache. -/
theorem coalesced_only_after_completion_witness :
    formatDate "2025-11-22" = some "2025-11-22" ∧
    alookup "2025-11-22"
      (sysRun ⟨fun _ => some "csv"⟩ "2025-11-22" ⟨⟨[], [], none, 0⟩, .pending, .pending⟩
        [true, true]).server.cache = some "csv" ∧
    (sysRun ⟨fun _ => some "csv"⟩ "2025-11-22" ⟨⟨[], [], none, 0⟩, .pending, .pending⟩
      [true, true]).reqB = Phase.pending ∧
    (sysStep ⟨fun _ => some "csv"⟩ "2025-11-22"
      (sysRun ⟨fun _ => some "csv"⟩ "2025-11-22" ⟨⟨[], [], none, 0⟩, .pending, .pending⟩
        [true, true]) false).reqB = Phase.finished (Response.fromCache "csv") :=
  ⟨by decide, by decide, by decide,
    (coalesced_only_after_completion ⟨fun _ => some "csv"⟩ "2025-11-22" "2025-11-22" "csv"
      (sysRun ⟨fun _ => some "csv"⟩ "2025-11-22" ⟨⟨[], [], none, 0⟩, .pending, .pending⟩
        [true, true])
      (by decide) (by decide) (by decide)).1⟩

/-! ### Helper lemmas about the pipeline stages -/

/-- Every element of a `zipWith` image comes from a pair of elements of
the input lists. -/
theorem exists_of_mem_zipWith {α β γ : Type} {f : α → β → γ} :
    ∀ {l₁ : List α} {l₂ : List β} {c : γ}, c ∈ List.zipWith f l₁ l₂ →
      ∃ a b, a ∈ l₁ ∧ b ∈ l₂ ∧ c = f a b
  | [], _, _, h => by simp at h
  | _ :: _, [], _, h => by simp at h
  | a :: l₁, b :: l₂, c, h => by
    rcases List.mem_cons.mp h with h | h
    · exact ⟨a, b, List.mem_cons_self _ _, List.mem_cons_self _ _, h⟩
    · rcases exists_of_mem_zipWith h with ⟨a', b', ha, hb, hc⟩
      exact ⟨a', b', List.mem_cons_of_mem _ ha, List.mem_cons_of_mem _ hb, hc⟩

/-- Every probability produced by `generate_batch_predictions` lies in
`[0, 1]`, whichever model-output shape (or failure) occurred. -/
theorem batch_probability_range {α : Type} (out : RawOutput)
    (features : List (Feature α)) (p : Pred)
    (h : p ∈ generate_batch_predictions out features) :
    0 ≤ p.probability ∧ p.probability ≤ 1 := by
  cases out with
  | probMatrix rows =>
    rcases exists_of_mem_zipWith h with ⟨f, v, _, hv, rfl⟩
    rcases List.mem_map.mp hv with ⟨w, _, rfl⟩
    exact ⟨clamp01_nonneg w, clamp01_le_one w⟩
  | numericVec vals =>
    rcases exists_of_mem_zipWith h with ⟨f, v, _, hv, rfl⟩
    rcases List.mem_map.mp hv with ⟨w, _, rfl⟩
    exact ⟨clamp01_nonneg w, clamp01_le_one w⟩
  | unrecognized draws =>
    rcases exists_of_mem_zipWith h with ⟨f, v, _, hv, rfl⟩
    rcases List.mem_map.mp hv with ⟨w, _, rfl⟩
    exact ⟨clamp01_nonneg w, clamp01_le_one w⟩
  | failure noise =>
    rcases exists_of_mem_zipWith h with ⟨f, z, _, _, rfl⟩
    refine ⟨le_trans (by norm_num) le_clampQ, le_trans (clampQ_le (by norm_num)) (by norm_num)⟩

/-- Every row produced by `generate_batch_predictions` takes its hour
from a feature row of the input. -/
theorem batch_hour_from_feature {α : Type} (out : RawOutput)
    (features : List (Feature α)) (p : Pred)
    (h : p ∈ generate_batch_predictions out features) :
    ∃ f ∈ features, p.hour = f.hour := by
  cases out with
  | probMatrix rows =>
    rcases exists_of_mem_zipWith h with ⟨f, v, hf, _, rfl⟩
    exact ⟨f, hf, rfl⟩
  | numericVec vals =>
    rcases exists_of_mem_zipWith h with ⟨f, v, hf, _, rfl⟩
    exact ⟨f, hf, rfl⟩
  | unrecognized draws =>
    rcases exists_of_mem_zipWith h with ⟨f, v, hf, _, rfl⟩
    exact ⟨f, hf, rfl⟩
  | failure noise =>
    rcases exists_of_mem_zipWith h with ⟨f, z, hf, _, rfl⟩
    exact ⟨f, hf, rfl⟩

/-- Every feature row built by the generator has an hour in `0..23`. -/
theorem feature_hour_lt {α : Type} (enc : TrigEncoding α)
    (locs : List Location) (dow : ℕ) (f : Feature α)
    (h : f ∈ generate_crash_location_features enc locs dow) : f.hour < 24 := by
  unfold generate_crash_location_features at h
  rcases List.mem_flatMap.mp h with ⟨loc, _, hmem⟩
  rcases List.mem_map.mp hmem with ⟨hr, hhr, rfl⟩
  exact List.mem_range.mp hhr

/-- The confidence formula `round(max(p, 1-p) * 100)` stays in `[0, 100]`
for `p ∈ [0, 1]`. -/
theorem confidence_range {p : ℚ} (h0 : 0 ≤ p) (h1 : p ≤ 1) :
    0 ≤ rround (max p (1 - p) * 100) ∧ rround (max p (1 - p) * 100) ≤ 100 := by
  constructor
  · refine le_rround_of_le ?_
    have : (0 : ℚ) ≤ max p (1 - p) := le_trans h0 (le_max_left _ _)
    push_cast
    nlinarith
  · refine rround_le_of_le ?_
    have : max p (1 - p) ≤ 1 := max_le h1 (by linarith)
    push_cast
    nlinarith

/-- C3.  Every prediction produced by the real-data pipeline has
`probability ∈ [0, 1]`, `confidence_score ∈ [0, 100]` and `hour ∈ [0, 23]`
(hours are naturals, so `0 ≤ hour` holds by type), for every location
list, day of week, date string and model-output shape, including the
fallback; and every row of the unnamed script's `export_crash_predictions`
has `probability ∈ [0, 1]` and `hour ∈ [0, 23]`, for every input. -/
theorem range_invariants :
    (∀ (α : Type) (enc : TrigEncoding α) (locs : List Location) (dow : ℕ) (ds : String)
      (out : RawOutput) (q : FinalPred), q ∈ pipeline enc locs dow ds out →
        0 ≤ q.probability ∧ q.probability ≤ 1 ∧
        0 ≤ q.confidence_score ∧ q.confidence_score ≤ 100 ∧ q.hour ≤ 23) ∧
    (∀ (rows : List ECPRow) (ds : String) (r : ECPOut), r ∈ export_crash_predictions rows ds →
        0 ≤ r.probability ∧ r.probability ≤ 1 ∧ 0 ≤ r.hour ∧ r.hour ≤ 23) := by
  constructor
  · intro α enc locs dow ds out q hq
    unfold pipeline add_confidence_score at hq
    rcases List.mem_map.mp hq with ⟨p, hp, rfl⟩
    have hp' : p ∈ generate_batch_predictions out (generate_crash_location_features enc locs dow) :=
      (List.mem_filter.mp hp).1
    have hrange := batch_probability_range _ _ _ hp'
    have hconf := confidence_range hrange.1 hrange.2
    rcases batch_hour_from_feature _ _ _ hp' with ⟨f, hf, hhour⟩
    have hlt := feature_hour_lt _ _ _ _ hf
    refine ⟨hrange.1, hrange.2, hconf.1, hconf.2, ?_⟩
    show p.hour ≤ 23
    omega
  · intro rows ds r hr
    unfold export_crash_predictions at hr
    have hcond := (List.mem_filter.mp hr).2
    rcases List.mem_map.mp (List.mem_filter.mp hr).1 with ⟨row, _, rfl⟩
    simp only [Bool.and_eq_true, decide_eq_true_eq] at hcond
    exact ⟨clamp01_nonneg _, clamp01_le_one _, hcond.1, hcond.2⟩

/-- Concrete evaluation of the pipeline on one location with a numeric
model output: one prediction at hour 0 with probability 1, confidence
100. -/
theorem pipeline_single_eval :
    pipeline encU [⟨37, -77, "Richmond"⟩] 1 "2025-11-22" (.numericVec [1]) =
      [⟨37, -77, 1, 100, 0, "2025-11-22", "Richmond"⟩] := by
  simp [pipeline, generate_crash_location_features, featureFor, List.range_succ_eq_map,
    generate_batch_predictions, mkPredRow, clamp01, clampQ, filter_valid_predictions,
    inVirginiaBox, add_confidence_score]
  norm_num [rround]

/-- C3 witness: a concrete location and model output run through the
pipeline, and a concrete row through `export_crash_predictions`. -/
theorem range_invariants_witness :
    ((⟨37, -77, 1, 100, 0, "2025-11-22", "Richmond"⟩ : FinalPred) ∈
        pipeline encU [⟨37, -77, "Richmond"⟩] 1 "2025-11-22" (.numericVec [1]) ∧
      (0 : ℚ) ≤ 1 ∧ (1 : ℚ) ≤ 1 ∧ (0 : ℤ) ≤ 100 ∧ (100 : ℤ) ≤ 100 ∧ (0 : ℕ) ≤ 23) ∧
    ((⟨37, -77, 1, 12, 500, "2025-11-22", "n"⟩ : ECPOut) ∈
        export_crash_predictions [⟨37, -77, 5, 12, none, "n"⟩] "2025-11-22" ∧
      (0 : ℚ) ≤ 1 ∧ (1 : ℚ) ≤ 1 ∧ (0 : ℤ) ≤ 12 ∧ (12 : ℤ) ≤ 23) := by
  have hm1 : (⟨37, -77, 1, 100, 0, "2025-11-22", "Richmond"⟩ : FinalPred) ∈
      pipeline encU [⟨37, -77, "Richmond"⟩] 1 "2025-11-22" (.numericVec [1]) := by
    rw [pipeline_single_eval]
    exact List.mem_singleton.mpr rfl
  have hm2 : (⟨37, -77, 1, 12, 500, "2025-11-22", "n"⟩ : ECPOut) ∈
      export_crash_predictions [⟨37, -77, 5, 12, none, "n"⟩] "2025-11-22" := by
    have : export_crash_predictions [⟨37, -77, 5, 12, none, "n"⟩] "2025-11-22" =
        [⟨37, -77, 1, 12, 500, "2025-11-22", "n"⟩] := by
      simp [export_crash_predictions, clamp01, clampQ]
      norm_num [rround]
    rw [this]
    exact List.mem_singleton.mpr rfl
  have h1 := range_invariants.1 Unit encU [⟨37, -77, "Richmond"⟩] 1 "2025-11-22"
    (.numericVec [1]) _ hm1
  have h2 := range_invariants.2 [⟨37, -77, 5, 12, none, "n"⟩] "2025-11-22" _ hm2
  exact ⟨⟨hm1, h1⟩, ⟨hm2, h2⟩⟩

/-- C4.  No prediction returned by the pipeline lies outside the Virginia
bounding box, and the geofencing filters keep a row if and only if it was
present and inside the box — every out-of-envelope row is dropped. -/
theorem envelope_invariant :
    (∀ (α : Type) (enc : TrigEncoding α) (locs : List Location) (dow : ℕ) (ds : String)
      (out : RawOutput) (q : FinalPred), q ∈ pipeline enc locs dow ds out →
        inVirginiaBox q.lat q.lon = true) ∧
    (∀ (l : List Pred) (p : Pred),
      p ∈ filter_valid_predictions l ↔ p ∈ l ∧ inVirginiaBox p.lat p.lon = true) ∧
    (∀ (l : List Pred) (p : Pred),
      p ∈ filter_virginia_land l ↔ p ∈ l ∧ inVirginiaBox p.lat p.lon = true) := by
  refine ⟨?_, ?_, ?_⟩
  · intro α enc locs dow ds out q hq
    unfold pipeline add_confidence_score at hq
    rcases List.mem_map.mp hq with ⟨p, hp, rfl⟩
    exact (List.mem_filter.mp hp).2
  · intro l p
    exact List.mem_filter
  · intro l p
    exact List.mem_filter

/-- C4 witness: an in-envelope prediction survives the pipeline, and an
out-of-envelope row (latitude 40, north of the box) is dropped by the
geofence. -/
theorem envelope_invariant_witness :
    ((⟨37, -77, 1, 100, 0, "2025-11-22", "Richmond"⟩ : FinalPred) ∈
        pipeline encU [⟨37, -77, "Richmond"⟩] 1 "2025-11-22" (.numericVec [1]) ∧
      inVirginiaBox (37 : ℚ) (-77) = true) ∧
    (⟨40, -77, 1, 0, "x"⟩ : Pred) ∉ filter_virginia_land [⟨40, -77, 1, 0, "x"⟩] := by
  have hm1 : (⟨37, -77, 1, 100, 0, "2025-11-22", "Richmond"⟩ : FinalPred) ∈
      pipeline encU [⟨37, -77, "Richmond"⟩] 1 "2025-11-22" (.numericVec [1]) := by
    rw [pipeline_single_eval]
    exact List.mem_singleton.mpr rfl
  refine ⟨⟨hm1, envelope_invariant.1 Unit encU _ 1 "2025-11-22" (.numericVec [1]) _ hm1⟩, ?_⟩
  intro hmem
  have := ((envelope_invariant.2.2 [⟨40, -77, 1, 0, "x"⟩] ⟨40, -77, 1, 0, "x"⟩).mp hmem).2
  simp [inVirginiaBox] at this
  norm_num at this

/-- C5 counterexample.  The `export_predictions_updated.R` path computes
`confidence_score = round(probability * 100)`, not
`round(100 * max(p, 1-p))`: a cluster whose ensemble score yields
probability 0.2 gets confidence 20, while the claimed formula gives 80. -/
theorem confidence_formula_not_universal :
    ∃ q ∈ updated_predictions [⟨0, 0, "c", 1/5⟩] 2 "2025-11-22",
      q.confidence_score ≠ rround (100 * max q.probability (1 - q.probability)) := by
  have heval : updated_predictions [⟨0, 0, "c", 1/5⟩] 2 "2025-11-22" =
      [⟨0, 0, 1/5, 20, 12, "2025-11-22", "c"⟩] := by
    simp [updated_predictions, upd_probability, clampQ]
    norm_num [rround, min_def, max_def, Int.fract]
  refine ⟨⟨0, 0, 1/5, 20, 12, "2025-11-22", "c"⟩, ?_, ?_⟩
  · rw [heval]; exact List.mem_singleton.mpr rfl
  · show (20 : ℤ) ≠ rround (100 * max (1/5 : ℚ) (1 - 1/5))
    norm_num [rround, max_def, Int.fract]

/-- C5 amended.  The two `pmax(p, 1-p)`-based paths (the real-data script's
`add_confidence_score` and the unnamed script's `add_confidence_score`)
compute `round(100 * max(p, 1-p))`, which is 100 at `p = 0` and `p = 1` and
50 at `p = 0.5`; but the code path of `export_predictions_updated.R`
computes `round(100 * p)` instead, so the claimed formula is not used by
every confidence-computing path. -/
theorem confidence_formula_by_path :
    (∀ (l : List Pred) (ds : String) (q : FinalPred), q ∈ add_confidence_score l ds →
      q.confidence_score = rround (100 * max q.probability (1 - q.probability))) ∧
    (∀ (l : List Pred) (q : P2Pred), q ∈ add_confidence_score_p2 l →
      q.confidence_score = rround (100 * max q.probability (1 - q.probability))) ∧
    rround (100 * max (0 : ℚ) (1 - 0)) = 100 ∧
    rround (100 * max (1 : ℚ) (1 - 1)) = 100 ∧
    rround (100 * max (1/2 : ℚ) (1 - 1/2)) = 50 ∧
    (∀ (rows : List UpdRow) (mx : ℚ) (ds : String) (q : FinalPred),
      q ∈ updated_predictions rows mx ds →
      q.confidence_score = rround (100 * q.probability)) := by
  refine ⟨?_, ?_, ?_, ?_, ?_, ?_⟩
  · intro l ds q hq
    rcases List.mem_map.mp hq with ⟨p, _, rfl⟩
    show rround (max p.probability (1 - p.probability) * 100) = _
    rw [mul_comm]
  · intro l q hq
    rcases List.mem_map.mp hq with ⟨p, _, rfl⟩
    show rround (max p.probability (1 - p.probability) * 100) = _
    rw [mul_comm]
  · norm_num [rround, max_def, Int.fract]
  · norm_num [rround, max_def, Int.fract]
  · norm_num [rround, max_def, Int.fract]
  · intro rows mx ds q hq
    rcases List.mem_map.mp hq with ⟨r, _, rfl⟩
    show rround (upd_probability r.ensemble mx * 100) = _
    rw [mul_comm]

/-- C5 amended witness: the formula evaluated on the concrete paths. -/
theorem confidence_formula_by_path_witness :
    ((⟨1, 2, 1, 100, 3, "d", "n"⟩ : FinalPred) ∈
        add_confidence_score [⟨1, 2, 1, 3, "n"⟩] "d" ∧
      (100 : ℤ) = rround (100 * max (1 : ℚ) (1 - 1))) ∧
    ((⟨0, 0, 1/5, 20, 12, "2025-11-22", "c"⟩ : FinalPred) ∈
        updated_predictions [⟨0, 0, "c", 1/5⟩] 2 "2025-11-22" ∧
      (20 : ℤ) = rround (100 * (1/5 : ℚ))) := by
  have hm1 : (⟨1, 2, 1, 100, 3, "d", "n"⟩ : FinalPred) ∈
      add_confidence_score [⟨1, 2, 1, 3, "n"⟩] "d" := by
    have : add_confidence_score [⟨1, 2, 1, 3, "n"⟩] "d" = [⟨1, 2, 1, 100, 3, "d", "n"⟩] := by
      simp [add_confidence_score]
      norm_num [rround, max_def, Int.fract]
    rw [this]; exact List.mem_singleton.mpr rfl
  have hm2 : (⟨0, 0, 1/5, 20, 12, "2025-11-22", "c"⟩ : FinalPred) ∈
      updated_predictions [⟨0, 0, "c", 1/5⟩] 2 "2025-11-22" := by
    have : updated_predictions [⟨0, 0, "c", 1/5⟩] 2 "2025-11-22" =
        [⟨0, 0, 1/5, 20, 12, "2025-11-22", "c"⟩] := by
      simp [updated_predictions, upd_probability, clampQ]
      norm_num [rround, min_def, max_def, Int.fract]
    rw [this]; exact List.mem_singleton.mpr rfl
  refine ⟨⟨hm1, ?_⟩, ⟨hm2, ?_⟩⟩
  · have := confidence_formula_by_path.1 [⟨1, 2, 1, 3, "n"⟩] "d" _ hm1
    simpa using this
  · have := confidence_formula_by_path.2.2.2.2.2 [⟨0, 0, "c", 1/5⟩] 2 "2025-11-22" _ hm2
    simpa using this

/-- C6 counterexample.  The synthetic fallback is NOT deterministic: for
the same input feature row, two different RNG draws give two different
outputs.  Moreover no provenance tag distinguishes fallback output from
genuine model output: a numeric model output of 0.6 and a fallback draw
produce literally identical prediction rows. -/
theorem fallback_not_deterministic :
    generate_batch_predictions (.failure [0]) [rushFeature] ≠
      generate_batch_predictions (.failure [1/10]) [rushFeature] ∧
    generate_batch_predictions (.numericVec [3/5]) [rushFeature] =
      generate_batch_predictions (.failure [0]) [rushFeature] := by
  have h1 : generate_batch_predictions (.failure [0]) [rushFeature] =
      [⟨37, -77, 3/5, 8, "x"⟩] := by
    simp [generate_batch_predictions, mkPredRow, fallbackMean, rushFeature, clampQ,
      min_def, max_def]
    norm_num
  have h2 : generate_batch_predictions (.failure [1/10]) [rushFeature] =
      [⟨37, -77, 7/10, 8, "x"⟩] := by
    simp [generate_batch_predictions, mkPredRow, fallbackMean, rushFeature, clampQ,
      min_def, max_def]
    norm_num
  have h3 : generate_batch_predictions (.numericVec [3/5]) [rushFeature] =
      [⟨37, -77, 3/5, 8, "x"⟩] := by
    simp [generate_batch_predictions, mkPredRow, rushFeature, clamp01, clampQ,
      min_def, max_def]
    norm_num
  refine ⟨?_, by rw [h3, h1]⟩
  rw [h1, h2]
  intro hc
  simp only [List.cons.injEq, Pred.mk.injEq, and_true, true_and] at hc
  norm_num at hc

/-- C6 amended.  When the model output errors out, the failure is not
propagated: one synthetic prediction is produced per (feature, draw) pair,
every fallback probability is clamped into `[0.1, 0.9]`, and the
distribution mean feeding the draw is elevated — 0.6 under a rush-hour
indicator, 0.4 under the night indicator, baseline 0.3 otherwise.  The
scores are random (mean plus draw), and the output rows carry no
provenance tag. -/
theorem synthetic_fallback_recovered {α : Type} (features : List (Feature α))
    (noise : List ℚ) (q : Pred)
    (h : q ∈ generate_batch_predictions (.failure noise) features) :
    (1/10 ≤ q.probability ∧ q.probability ≤ 9/10) ∧
    (generate_batch_predictions (.failure noise) features).length =
      min features.length noise.length ∧
    (∀ f : Feature α,
      ((f.is_morning_rush = 1 ∨ f.is_evening_rush = 1) → fallbackMean f = 6/10) ∧
      (¬(f.is_morning_rush = 1 ∨ f.is_evening_rush = 1) → f.is_night = 1 →
        fallbackMean f = 4/10) ∧
      (¬(f.is_morning_rush = 1 ∨ f.is_evening_rush = 1) → f.is_night ≠ 1 →
        fallbackMean f = 3/10)) := by
  refine ⟨?_, ?_, ?_⟩
  · rcases exists_of_mem_zipWith h with ⟨f, z, _, _, rfl⟩
    exact ⟨le_clampQ, clampQ_le (by norm_num)⟩
  · exact List.length_zipWith _ _ _
  · intro f
    refine ⟨fun hr => ?_, fun hr hn => ?_, fun hr hn => ?_⟩
    · simp [fallbackMean, hr]
    · simp [fallbackMean, hr, hn]
    · simp [fallbackMean, hr, hn]

/-- C6 amended witness: a concrete fallback run over the rush-hour
feature. -/
theorem synthetic_fallback_recovered_witness :
    ((⟨37, -77, 3/5, 8, "x"⟩ : Pred) ∈
        generate_batch_predictions (.failure [0]) [rushFeature]) ∧
    ((1/10 : ℚ) ≤ 3/5 ∧ (3/5 : ℚ) ≤ 9/10) ∧
    (generate_batch_predictions (.failure [0]) [rushFeature]).length = 1 ∧
    fallbackMean rushFeature = 6/10 := by
  have hm : (⟨37, -77, 3/5, 8, "x"⟩ : Pred) ∈
      generate_batch_predictions (.failure [0]) [rushFeature] := by
    have : generate_batch_predictions (.failure [0]) [rushFeature] =
        [⟨37, -77, 3/5, 8, "x"⟩] := by
      simp [generate_batch_predictions, mkPredRow, fallbackMean, rushFeature, clampQ,
        min_def, max_def]
      norm_num
    rw [this]; exact List.mem_singleton.mpr rfl
  have h := synthetic_fallback_recovered [rushFeature] [0] _ hm
  refine ⟨hm, h.1, h.2.1, (h.2.2 rushFeature).1 (Or.inl rfl)⟩

/-- The feature list has exactly 24 rows per location. -/
theorem features_length {α : Type} (enc : TrigEncoding α) (locs : List Location)
    (dow : ℕ) :
    (generate_crash_location_features enc locs dow).length = 24 * locs.length := by
  induction locs with
  | nil => rfl
  | cons a t ih =>
    simp only [generate_crash_location_features, List.flatMap_cons, List.length_append,
      List.length_map, List.length_range, List.length_cons] at ih ⊢
    omega

/-- The row at flat index `24 * i + h` is the feature row of the `i`-th
location at hour `h` (location-major, hour fastest). -/
theorem features_getElem {α : Type} (enc : TrigEncoding α) :
    ∀ (locs : List Location) (dow i h : ℕ) (hi : i < locs.length), h < 24 →
      (generate_crash_location_features enc locs dow)[24 * i + h]? =
        some (featureFor enc (locs.get ⟨i, hi⟩) dow h)
  | [], _, i, _, hi, _ => absurd hi (by simp)
  | loc :: t, dow, 0, h, hi, hh => by
    unfold generate_crash_location_features
    rw [List.flatMap_cons]
    rw [List.getElem?_append, if_pos (by simpa using hh)]
    simp [List.getElem?_range, hh]
  | loc :: t, dow, i + 1, h, hi, hh => by
    unfold generate_crash_location_features
    rw [List.flatMap_cons]
    rw [List.getElem?_append, if_neg (by simp; omega)]
    have := features_getElem enc t dow i h (by simpa using Nat.lt_of_succ_lt_succ hi) hh
    unfold generate_crash_location_features at this
    simp only [List.length_map, List.length_range]
    have harith : 24 * (i + 1) + h - 24 = 24 * i + h := by omega
    rw [harith]
    simpa using this

/-- C9.  For every location list and day of week, the feature generator
produces exactly one row per (location, hour) pair of the cross product
`locations × [0..23]`, and — instantiating the cyclical encodings with
the genuine real-valued ones — the row for the `i`-th location at hour `h`
carries `hour_sin = sin(2πh/24)`, `hour_cos = cos(2πh/24)`, the 7-period
day-of-week sine and cosine, the morning-rush indicator `7 ≤ h ≤ 9`, the
evening-rush indicator `16 ≤ h ≤ 18`, and the night indicator
`h ≥ 22 ∨ h ≤ 2`. -/
theorem feature_cross_product (locs : List Location) (dow : ℕ) (i h : ℕ)
    (hi : i < locs.length) (hh : h < 24) :
    (generate_crash_location_features
        (⟨fun n => Real.sin (2 * Real.pi * n / 24), fun n => Real.cos (2 * Real.pi * n / 24),
          fun n => Real.sin (2 * Real.pi * n / 7), fun n => Real.cos (2 * Real.pi * n / 7)⟩ :
          TrigEncoding ℝ) locs dow).length = 24 * locs.length ∧
    (generate_crash_location_features
        (⟨fun n => Real.sin (2 * Real.pi * n / 24), fun n => Real.cos (2 * Real.pi * n / 24),
          fun n => Real.sin (2 * Real.pi * n / 7), fun n => Real.cos (2 * Real.pi * n / 7)⟩ :
          TrigEncoding ℝ) locs dow)[24 * i + h]? =
      some
        { lat := (locs.get ⟨i, hi⟩).lat
          lon := (locs.get ⟨i, hi⟩).lon
          hour := h
          hour_sin := Real.sin (2 * Real.pi * h / 24)
          hour_cos := Real.cos (2 * Real.pi * h / 24)
          is_morning_rush := if 7 ≤ h ∧ h ≤ 9 then 1 else 0
          is_evening_rush := if 16 ≤ h ∧ h ≤ 18 then 1 else 0
          is_night := if 22 ≤ h ∨ h ≤ 2 then 1 else 0
          day_of_week := dow
          day_sin := Real.sin (2 * Real.pi * dow / 7)
          day_cos := Real.cos (2 * Real.pi * dow / 7)
          name := (locs.get ⟨i, hi⟩).name } :=
  ⟨features_length _ locs dow, features_getElem _ locs dow i h hi hh⟩

/-- C9 witness: the Richmond location at hour 5: 24 rows, and row 5
carries the hour-5 encodings. -/
theorem feature_cross_product_witness :
    0 < ([⟨37, -77, "Richmond"⟩] : List Location).length ∧ 5 < 24 ∧
    (generate_crash_location_features
        (⟨fun n => Real.sin (2 * Real.pi * n / 24), fun n => Real.cos (2 * Real.pi * n / 24),
          fun n => Real.sin (2 * Real.pi * n / 7), fun n => Real.cos (2 * Real.pi * n / 7)⟩ :
          TrigEncoding ℝ) [⟨37, -77, "Richmond"⟩] 3).length = 24 ∧
    (generate_crash_location_features
        (⟨fun n => Real.sin (2 * Real.pi * n / 24), fun n => Real.cos (2 * Real.pi * n / 24),
          fun n => Real.sin (2 * Real.pi * n / 7), fun n => Real.cos (2 * Real.pi * n / 7)⟩ :
          TrigEncoding ℝ) [⟨37, -77, "Richmond"⟩] 3)[5]? =
      some
        { lat := 37, lon := -77, hour := 5
          hour_sin := Real.sin (2 * Real.pi * (5 : ℕ) / 24)
          hour_cos := Real.cos (2 * Real.pi * (5 : ℕ) / 24)
          is_morning_rush := 0, is_evening_rush := 0, is_night := 0
          day_of_week := 3
          day_sin := Real.sin (2 * Real.pi * (3 : ℕ) / 7)
          day_cos := Real.cos (2 * Real.pi * (3 : ℕ) / 7)
          name := "Richmond" } := by
  have h := feature_cross_product [⟨37, -77, "Richmond"⟩] 3 0 5 (by decide) (by decide)
  exact ⟨by decide, by decide, h.1, by simpa using h.2⟩

end CrashPipeline
